import Mathlib

/-!
Verification of the temperature-matrix aggregation pipeline of
`src/script.js` (a d3 year-by-month heatmap).

Shallow embedding conventions:
* A JavaScript number is modelled as `Option ℚ`; `none` stands for `NaN`.
  (All numbers occurring in this pipeline are exact decimals, so `ℚ` is a
  faithful carrier; `NaN` is the one non-finite value the code can produce,
  via `new Date(bad)` components and `+nonNumericString`.)
* `new Date(s)` followed by `getFullYear/getMonth/getDate` is modelled by
  `jsDateComponents`, covering the ECMAScript Date Time String Format
  date-only form `YYYY-MM-DD` used by the CSV input; strings outside this
  format are treated as unparseable (Invalid Date, i.e. `NaN` components).
  The time zone is pinned to UTC, as the spec requires.
* Unary `+` on a string (ECMAScript `ToNumber`) is modelled by
  `jsStringToNumber`, covering the `StringNumericLiteral` fragment used by
  CSV fields: optional whitespace, optional sign, decimal digits with an
  optional fraction.  An empty or all-whitespace string coerces to `0`, as
  in ECMAScript.  (Exponent and hex forms never occur in this data set and
  are mapped to `NaN`.)
* `d3.group` followed by `groupedData.get(year)?.get(monthIndex) || []`
  retrieves exactly the records of `data` whose `year`/`month` equal the
  keys, in their original order (`d3.group` preserves input order and uses
  SameValueZero key equality); this is `monthGroup`.
* `Array.prototype.sort` with a numeric comparator is a stable ascending
  sort; it is modelled by `List.insertionSort` (stable).  The comparator
  `(a, b) => a.day - b.day` is modelled by `jsDayLe`, reading a `NaN` day
  as key `0` (ECMAScript coerces a `NaN` comparator result to `+0`; the
  pipeline only ever sorts records with numeric days, see `c10`).
-/

/-- A JavaScript number: `some q` is the finite value `q`, `none` is `NaN`. -/
abbrev JSNum := Option ℚ

/-- JS `x >= c` for `x` a JS number and `c` a numeric literal:
`false` whenever `x` is `NaN`. -/
def jsGeB (x : JSNum) (c : ℚ) : Bool :=
  match x with
  | some v => decide (c ≤ v)
  | none => false

/-- JS `x <= c` for `x` a JS number and `c` a numeric literal:
`false` whenever `x` is `NaN`. -/
def jsLeB (x : JSNum) (c : ℚ) : Bool :=
  match x with
  | some v => decide (v ≤ c)
  | none => false

/-- Numeric value of a digit list (most significant first). -/
def natOfDigits (l : List Char) : ℕ :=
  l.foldl (fun n c => 10 * n + (c.toNat - 48)) 0

/-- ECMAScript `StrWhiteSpaceChar` (the fragment relevant to CSV fields). -/
def isJsSpace (c : Char) : Bool :=
  c = ' ' || c = '\t' || c = '\n' || c = '\r'

/-- ECMAScript `ToNumber` on a string (unary `+`), restricted to the
`StringNumericLiteral` fragment `[sign] digits [. digits]` with optional
surrounding whitespace.  Empty / all-whitespace input yields `0`; anything
else outside the fragment yields `NaN` (`none`). -/
def jsStringToNumber (s : String) : JSNum :=
  let t := ((s.toList.dropWhile isJsSpace).reverse.dropWhile isJsSpace).reverse
  if t.isEmpty then some 0
  else
    let sign : ℚ := if t.head? = some '-' then -1 else 1
    let u := if t.head? = some '-' || t.head? = some '+' then t.tail else t
    let intPart := u.takeWhile Char.isDigit
    let rest := u.dropWhile Char.isDigit
    match rest with
    | [] =>
      if intPart.isEmpty then none
      else some (sign * (natOfDigits intPart : ℚ))
    | '.' :: frac =>
      if frac.all Char.isDigit && !(intPart.isEmpty && frac.isEmpty) then
        some (sign * ((natOfDigits intPart : ℚ) +
          (natOfDigits frac : ℚ) / (10 : ℚ) ^ frac.length))
      else none
    | _ => none

/-- Whether `y` is a leap year (proleptic Gregorian, as ECMAScript dates). -/
def isLeapYear (y : ℕ) : Bool :=
  (y % 4 = 0 && y % 100 ≠ 0) || y % 400 = 0

/-- Days in month `m` (1-based) of year `y`. -/
def daysInMonth (y m : ℕ) : ℕ :=
  if m = 2 then (if isLeapYear y then 29 else 28)
  else if m = 4 || m = 6 || m = 9 || m = 11 then 30
  else 31

/-- `new Date(s)` for the ECMAScript Date Time String Format date-only form
`YYYY-MM-DD` (the CSV input format): `some (year, month0, day)` with the
month 0-based as `getMonth()` returns it, or `none` for an Invalid Date.
The day is validated against the month length, as engines do. -/
def jsDateComponents (s : String) : Option (ℕ × ℕ × ℕ) :=
  match s.toList with
  | [y1, y2, y3, y4, '-', m1, m2, '-', d1, d2] =>
    if [y1, y2, y3, y4, m1, m2, d1, d2].all Char.isDigit then
      let y := natOfDigits [y1, y2, y3, y4]
      let m := natOfDigits [m1, m2]
      let d := natOfDigits [d1, d2]
      if 1 ≤ m && m ≤ 12 && 1 ≤ d && d ≤ daysInMonth y m then
        some (y, m - 1, d)
      else none
    else none
  | _ => none

/-- One row of the raw CSV as handed over by `d3.csv`: all fields are
strings. -/
structure RawRow where
  date : String
  max_temperature : String
  min_temperature : String
deriving DecidableEq, Repr

/-- One parsed record, as produced by `parseTemperatureData`:
`date` is the `Date` object (its calendar components, `none` when Invalid),
the remaining fields are JS numbers (`none` = `NaN`). -/
structure ParsedRecord where
  date : Option (ℕ × ℕ × ℕ)
  maxTemperature : JSNum
  minTemperature : JSNum
  year : JSNum
  month : JSNum
  day : JSNum
deriving DecidableEq, Repr

/-- The per-row lambda of `parseTemperatureData` (src/script.js:54-61):
`date: new Date(d.date), maxTemperature: +d.max_temperature,
minTemperature: +d.min_temperature, year/month/day` from the parsed date. -/
def parseRecord (d : RawRow) : ParsedRecord :=
  { date := jsDateComponents d.date
    maxTemperature := jsStringToNumber d.max_temperature
    minTemperature := jsStringToNumber d.min_temperature
    year := (jsDateComponents d.date).map (fun p => (p.1 : ℚ))
    month := (jsDateComponents d.date).map (fun p => (p.2.1 : ℚ))
    day := (jsDateComponents d.date).map (fun p => (p.2.2 : ℚ)) }

/-- `parseTemperatureData` (src/script.js:53-62): `rawData.map(...)`. -/
def parseTemperatureData (rawData : List RawRow) : List ParsedRecord :=
  rawData.map parseRecord

/-- `CONFIG.yearRange.start` (src/script.js:16). -/
def yearRangeStart : ℚ := 2008

/-- `CONFIG.yearRange.end` (src/script.js:16). -/
def yearRangeEnd : ℚ := 2017

/-- `CONFIG.tempRange.min` (src/script.js:15). -/
def tempRangeMin : ℚ := 0

/-- `CONFIG.tempRange.max` (src/script.js:15). -/
def tempRangeMax : ℚ := 40

/-- `[...new Set(l)]`: deduplication keeping first occurrences, in order. -/
def setDedup (l : List ℚ) : List ℚ :=
  l.foldl (fun acc x => if x ∈ acc then acc else acc ++ [x]) []

/-- `filterDataByYearRange` (src/script.js:69-77).  The year filter is
`d.year >= CONFIG.yearRange.start && d.year <= CONFIG.yearRange.end`; the
years are `[...new Set(filteredData.map(d => d.year))].sort((a, b) => a - b)`.
Every record passing the filter has a numeric (non-`NaN`) year, so mapping
`d.year` over `filteredData` is extraction of the underlying rationals
(`filterMap`); the numeric-comparator sort is the ascending sort. -/
def filterDataByYearRange (data : List ParsedRecord) :
    List ParsedRecord × List ℚ :=
  let filteredData := data.filter
    (fun d => jsGeB d.year yearRangeStart && jsLeB d.year yearRangeEnd)
  let years := List.insertionSort (· ≤ ·)
    (setDedup (filteredData.filterMap (fun d => d.year)))
  (filteredData, years)

/-- `MONTHS` (src/script.js:26-39). -/
def MONTHS : List String :=
  ["January", "February", "March", "April", "May", "June", "July",
   "August", "September", "October", "November", "December"]

/-- `groupedData.get(year)?.get(monthIndex) || []` over `d3.group(data,
d => d.year, d => d.month)` (src/script.js:87-98): the records of `data`
whose `year` and `month` equal the keys, in input order. -/
def monthGroup (data : List ParsedRecord) (year : ℚ) (monthIndex : ℕ) :
    List ParsedRecord :=
  data.filter (fun d =>
    decide (d.year = some year) && decide (d.month = some (monthIndex : ℚ)))

/-- `d3.max(l, f)`: maximum of the non-`NaN` values of `f`, `NaN`-free;
`undefined` (here folded into `none`) when no value is comparable. -/
def d3max (l : List ParsedRecord) (f : ParsedRecord → JSNum) : JSNum :=
  match l.filterMap f with
  | [] => none
  | x :: xs => some (xs.foldl max x)

/-- `d3.min(l, f)`: minimum of the non-`NaN` values of `f`. -/
def d3min (l : List ParsedRecord) (f : ParsedRecord → JSNum) : JSNum :=
  match l.filterMap f with
  | [] => none
  | x :: xs => some (xs.foldl min x)

/-- `d3.mean(l, f)`: arithmetic mean of the non-`NaN` values of `f`,
`undefined`/`none` when there are none. -/
def d3mean (l : List ParsedRecord) (f : ParsedRecord → JSNum) : JSNum :=
  let v := l.filterMap f
  if v.isEmpty then none else some (v.sum / (v.length : ℚ))

/-- The sort key order of `monthRecords.sort((a, b) => a.day - b.day)`
(src/script.js:109): ascending by day.  A `NaN` day is read as key `0`
(the comparator result `NaN` coerces to `+0` in ECMAScript; the pipeline
only sorts records with numeric days). -/
def jsDayLe (a b : ParsedRecord) : Prop :=
  a.day.getD 0 ≤ b.day.getD 0

instance : DecidableRel jsDayLe := fun a b =>
  inferInstanceAs (Decidable (a.day.getD 0 ≤ b.day.getD 0))

instance : IsTotal ParsedRecord jsDayLe :=
  ⟨fun a b => le_total (a.day.getD 0) (b.day.getD 0)⟩

instance : IsTrans ParsedRecord jsDayLe :=
  ⟨fun _ _ _ hab hbc => le_trans hab hbc⟩

/-- One output cell of `aggregateMonthlyData` (src/script.js:101-110). -/
structure MonthlySummary where
  year : ℚ
  month : ℕ
  monthName : String
  maxTemp : JSNum
  minTemp : JSNum
  avgMax : JSNum
  avgMin : JSNum
  dailyData : List ParsedRecord
deriving DecidableEq, Repr

/-- The body of the inner `MONTHS.forEach` of `aggregateMonthlyData`
(src/script.js:97-112): the summary pushed for `(year, monthIndex)`, or
nothing when the month group is empty. -/
def monthSummary (data : List ParsedRecord) (year : ℚ) (monthIndex : ℕ) :
    Option MonthlySummary :=
  let monthRecords := monthGroup data year monthIndex
  if monthRecords.length > 0 then
    some
      { year := year
        month := monthIndex
        monthName := MONTHS.getD monthIndex ""
        maxTemp := d3max monthRecords (fun d => d.maxTemperature)
        minTemp := d3min monthRecords (fun d => d.minTemperature)
        avgMax := d3mean monthRecords (fun d => d.maxTemperature)
        avgMin := d3mean monthRecords (fun d => d.minTemperature)
        dailyData := List.insertionSort jsDayLe monthRecords }
  else none

/-- `aggregateMonthlyData` (src/script.js:85-116): for each year of `years`
in order and each month index `0..11` in order (`MONTHS.forEach` supplies
indices `0..11` since `MONTHS` has 12 entries), push the month summary when
the group is non-empty. -/
def aggregateMonthlyData (data : List ParsedRecord) (years : List ℚ) :
    List MonthlySummary :=
  (years.map (fun year => (List.range 12).filterMap (monthSummary data year))).flatten

/-- The cubic uniform B-spline basis evaluation of d3-interpolate
(`function basis(t1, v0, v1, v2, v3)`). -/
def basisPoint (t1 v0 v1 v2 v3 : ℚ) : ℚ :=
  ((1 - 3 * t1 + 3 * t1 ^ 2 - t1 ^ 3) * v0
    + (4 - 6 * t1 ^ 2 + 3 * t1 ^ 3) * v1
    + (1 + 3 * t1 + 3 * t1 ^ 2 - 3 * t1 ^ 3) * v2
    + t1 ^ 3 * v3) / 6

/-- The body of d3-interpolate `basis(values)` once the clamped parameter
`t1` and segment index `i` are fixed: looks up the four control values
(reflecting at the ends) and evaluates `basisPoint`. -/
def basisSegment (values : List ℚ) (t1 : ℚ) (i : ℕ) : ℚ :=
  let n : ℕ := values.length - 1
  let v1 := values.getD i 0
  let v2 := values.getD (i + 1) 0
  let v0 := if 0 < i then values.getD (i - 1) 0 else 2 * v1 - v2
  let v3 := if i < n - 1 then values.getD (i + 2) 0 else 2 * v2 - v1
  basisPoint ((t1 - (i : ℚ) / (n : ℚ)) * (n : ℚ)) v0 v1 v2 v3

/-- d3-interpolate `basis(values)` applied to `t`, one color channel:
`t` is clamped to `[0, 1]` (`t <= 0 ? (t = 0) : t >= 1 ? (t = 1, n - 1)
: Math.floor(t * n)` selects the segment), then the segment is evaluated. -/
def basisSpline (values : List ℚ) (t : ℚ) : ℚ :=
  if t ≤ 0 then basisSegment values 0 0
  else if 1 ≤ t then basisSegment values 1 (values.length - 1 - 1)
  else basisSegment values t
    (Rat.floor (t * ((values.length - 1 : ℕ) : ℚ))).toNat

/-- Red channel of the 9-color YlOrRd scheme of d3-scale-chromatic. -/
def ylOrRdReds : List ℚ := [255, 255, 254, 254, 253, 252, 227, 189, 128]

/-- Green channel of the 9-color YlOrRd scheme. -/
def ylOrRdGreens : List ℚ := [255, 237, 217, 178, 141, 78, 26, 0, 0]

/-- Blue channel of the 9-color YlOrRd scheme. -/
def ylOrRdBlues : List ℚ := [204, 160, 118, 76, 60, 42, 28, 38, 38]

/-- `d3.interpolateYlOrRd` (`ramp(scheme) = rgbBasis(scheme[8])`): the RGB
triple at parameter `t`, each channel a clamping B-spline. -/
def interpolateYlOrRd (t : ℚ) : ℚ × ℚ × ℚ :=
  (basisSpline ylOrRdReds t, basisSpline ylOrRdGreens t, basisSpline ylOrRdBlues t)

/-- `d3.scaleSequential().domain([d0, d1]).interpolator(interpolateYlOrRd)`
applied to `x`: the interpolator at the unclamped normalized position
(`scaleSequential` does not itself clamp — the clamping lives in the
interpolator). -/
def scaleSequentialYlOrRd (d0 d1 x : ℚ) : ℚ × ℚ × ℚ :=
  interpolateYlOrRd ((x - d0) / (d1 - d0))

/-- `createColorScale` (src/script.js:123-128). -/
def createColorScale (x : ℚ) : ℚ × ℚ × ℚ :=
  scaleSequentialYlOrRd tempRangeMin tempRangeMax x

/-- JS `x <= y` on two JS numbers: `false` whenever either is `NaN`.
Used to state per-record `minTemperature <= maxTemperature` hypotheses. -/
def jsLeNum (x y : JSNum) : Bool :=
  match x, y with
  | some a, some b => decide (a ≤ b)
  | _, _ => false

/-- The `(year, month)` pairs of the iteration of `aggregateMonthlyData`
whose month group is non-empty, in iteration order. -/
def nonEmptyPairs (data : List ParsedRecord) (years : List ℚ) :
    List (ℚ × ℕ) :=
  (years.map (fun y =>
    ((List.range 12).filter (fun m => decide (monthGroup data y m ≠ []))).map
      (fun m => (y, m)))).flatten

/-- The parsed record for the row `("2015-01-15", 20.0, 10.0)`. -/
def rec15 : ParsedRecord :=
  { date := some (2015, 0, 15), maxTemperature := some 20,
    minTemperature := some 10, year := some 2015, month := some 0,
    day := some 15 }

/-- The parsed record for the row `("2015-01-16", 22.0, 11.0)`. -/
def rec16 : ParsedRecord :=
  { date := some (2015, 0, 16), maxTemperature := some 22,
    minTemperature := some 11, year := some 2015, month := some 0,
    day := some 16 }

/-- The two-row sample input of the spec scenario. -/
def sampleRows : List RawRow :=
  [⟨"2015-01-15", "20.0", "10.0"⟩, ⟨"2015-01-16", "22.0", "11.0"⟩]

/-- The parsed two-record sample data set. -/
def sampleData : List ParsedRecord := [rec15, rec16]

/-- A raw row whose date string is malformed. -/
def badRow : RawRow := ⟨"not-a-date", "20.0", "10.0"⟩

/-- A raw row with a valid date, an empty `max_temperature` field and a
non-numeric `min_temperature` field. -/
def badTempRow : RawRow := ⟨"2015-01-15", "", "oops"⟩

section Lemmas

lemma jsGeB_none (c : ℚ) : jsGeB none c = false := rfl

lemma jsGeB_some (v c : ℚ) : jsGeB (some v) c = decide (c ≤ v) := rfl

lemma jsLeB_none (c : ℚ) : jsLeB none c = false := rfl

lemma jsLeB_some (v c : ℚ) : jsLeB (some v) c = decide (v ≤ c) := rfl

lemma setDedup_loop_mem (l : List ℚ) (acc : List ℚ) (x : ℚ) :
    x ∈ l.foldl (fun acc x => if x ∈ acc then acc else acc ++ [x]) acc ↔
      x ∈ acc ∨ x ∈ l := by
  induction l generalizing acc with
  | nil => simp
  | cons a l ih =>
    simp only [List.foldl_cons]
    by_cases h : a ∈ acc
    · rw [if_pos h, ih]
      constructor
      · rintro (h1 | h1)
        · exact Or.inl h1
        · exact Or.inr (List.mem_cons_of_mem a h1)
      · rintro (h1 | h1)
        · exact Or.inl h1
        · rcases List.mem_cons.1 h1 with rfl | h2
          · exact Or.inl h
          · exact Or.inr h2
    · rw [if_neg h, ih]
      simp only [List.mem_append, List.mem_singleton, List.mem_cons]
      tauto

lemma setDedup_loop_nodup (l : List ℚ) (acc : List ℚ) (h : acc.Nodup) :
    (l.foldl (fun acc x => if x ∈ acc then acc else acc ++ [x]) acc).Nodup := by
  induction l generalizing acc with
  | nil => simpa using h
  | cons a l ih =>
    simp only [List.foldl_cons]
    by_cases ha : a ∈ acc
    · rw [if_pos ha]; exact ih acc h
    · rw [if_neg ha]
      refine ih _ ?_
      simp [List.nodup_append, h, ha]

lemma mem_setDedup {l : List ℚ} {x : ℚ} : x ∈ setDedup l ↔ x ∈ l := by
  simpa [setDedup] using setDedup_loop_mem l [] x

lemma nodup_setDedup (l : List ℚ) : (setDedup l).Nodup :=
  setDedup_loop_nodup l [] List.nodup_nil

lemma mem_filteredData {data : List ParsedRecord} {r : ParsedRecord} :
    r ∈ (filterDataByYearRange data).1 ↔
      r ∈ data ∧ ∃ q, r.year = some q ∧ yearRangeStart ≤ q ∧ q ≤ yearRangeEnd := by
  simp only [filterDataByYearRange, List.mem_filter, Bool.and_eq_true]
  cases hy : r.year with
  | none => simp [jsGeB_none, hy]
  | some q => simp [jsGeB_some, jsLeB_some, hy, and_assoc]

lemma year_isSome_of_mem_filteredData {data : List ParsedRecord}
    {r : ParsedRecord} (h : r ∈ (filterDataByYearRange data).1) :
    ∃ q, r.year = some q :=
  (mem_filteredData.1 h).2.imp (fun _ hq => hq.1)

lemma mem_years {data : List ParsedRecord} {q : ℚ} :
    q ∈ (filterDataByYearRange data).2 ↔
      ∃ r ∈ (filterDataByYearRange data).1, r.year = some q := by
  show q ∈ List.insertionSort _ _ ↔ _
  rw [(List.perm_insertionSort _ _).mem_iff, mem_setDedup, List.mem_filterMap]
  rfl

lemma sorted_years (data : List ParsedRecord) :
    List.Sorted (· < ·) (filterDataByYearRange data).2 := by
  have hs : List.Sorted (· ≤ ·) (filterDataByYearRange data).2 :=
    List.sorted_insertionSort _ _
  have hn : ((filterDataByYearRange data).2).Nodup :=
    ((List.perm_insertionSort _ _).nodup_iff).2 (nodup_setDedup _)
  exact (hs.and hn).imp (fun h => lt_of_le_of_ne h.1 h.2)

lemma monthSummary_eq_some {data : List ParsedRecord} {y : ℚ} {m : ℕ}
    {s : MonthlySummary} (h : monthSummary data y m = some s) :
    s.year = y ∧ s.month = m ∧ monthGroup data y m ≠ [] ∧
    s.dailyData = List.insertionSort jsDayLe (monthGroup data y m) ∧
    s.maxTemp = d3max (monthGroup data y m) (fun d => d.maxTemperature) ∧
    s.minTemp = d3min (monthGroup data y m) (fun d => d.minTemperature) ∧
    s.avgMax = d3mean (monthGroup data y m) (fun d => d.maxTemperature) ∧
    s.avgMin = d3mean (monthGroup data y m) (fun d => d.minTemperature) := by
  simp only [monthSummary] at h
  split at h
  · cases h
    refine ⟨rfl, rfl, ?_, rfl, rfl, rfl, rfl, rfl⟩
    exact List.ne_nil_of_length_pos (by assumption)
  · cases h

lemma monthSummary_eq_none {data : List ParsedRecord} {y : ℚ} {m : ℕ}
    (h : monthGroup data y m = []) : monthSummary data y m = none := by
  unfold monthSummary
  rw [if_neg]
  simp [h]

lemma monthSummary_isSome_of_ne {data : List ParsedRecord} {y : ℚ} {m : ℕ}
    (h : monthGroup data y m ≠ []) : ∃ s, monthSummary data y m = some s := by
  unfold monthSummary
  rw [if_pos (List.length_pos.2 h)]
  exact ⟨_, rfl⟩

lemma mem_aggregate {data : List ParsedRecord} {years : List ℚ}
    {s : MonthlySummary} :
    s ∈ aggregateMonthlyData data years ↔
      ∃ y ∈ years, ∃ m, m < 12 ∧ monthSummary data y m = some s := by
  simp only [aggregateMonthlyData, List.mem_flatten, List.mem_map]
  constructor
  · rintro ⟨l, ⟨y, hy, rfl⟩, hs⟩
    rw [List.mem_filterMap] at hs
    obtain ⟨m, hm, hsome⟩ := hs
    exact ⟨y, hy, m, List.mem_range.1 hm, hsome⟩
  · rintro ⟨y, hy, m, hm, hsome⟩
    exact ⟨_, ⟨y, hy, rfl⟩, List.mem_filterMap.2 ⟨m, List.mem_range.2 hm, hsome⟩⟩

lemma keys_filterMap (data : List ParsedRecord) (y : ℚ) (l : List ℕ) :
    ((l.filterMap (monthSummary data y)).map (fun s => (s.year, s.month))) =
      (l.filter (fun m => decide (monthGroup data y m ≠ []))).map
        (fun m => (y, m)) := by
  induction l with
  | nil => rfl
  | cons m l ih =>
    by_cases h : monthGroup data y m = []
    · rw [List.filterMap_cons, monthSummary_eq_none h]
      simp only [List.filter_cons]
      rw [if_neg (by simp [h])]
      exact ih
    · obtain ⟨s, hs⟩ := monthSummary_isSome_of_ne h
      obtain ⟨hy, hm, -⟩ := monthSummary_eq_some hs
      rw [List.filterMap_cons, hs]
      simp only [List.filter_cons]
      rw [if_pos (by simp [h])]
      simp only [List.map_cons, hy, hm, ih]

lemma keys_aggregate (data : List ParsedRecord) (years : List ℚ) :
    (aggregateMonthlyData data years).map (fun s => (s.year, s.month)) =
      nonEmptyPairs data years := by
  unfold aggregateMonthlyData nonEmptyPairs
  rw [List.map_flatten, List.map_map]
  congr 1
  exact List.map_congr_left (fun y _ => keys_filterMap data y (List.range 12))

lemma mem_nonEmptyPairs {data : List ParsedRecord} {years : List ℚ}
    {y : ℚ} {m : ℕ} :
    (y, m) ∈ nonEmptyPairs data years ↔
      y ∈ years ∧ m < 12 ∧ monthGroup data y m ≠ [] := by
  unfold nonEmptyPairs
  rw [List.mem_flatten]
  constructor
  · rintro ⟨l, hl, hp⟩
    rw [List.mem_map] at hl
    obtain ⟨y1, hy1, rfl⟩ := hl
    rw [List.mem_map] at hp
    obtain ⟨m1, hm1, heq⟩ := hp
    rw [List.mem_filter, List.mem_range, decide_eq_true_eq] at hm1
    injection heq with h1 h2
    subst h1; subst h2
    exact ⟨hy1, hm1.1, hm1.2⟩
  · rintro ⟨hy, hm, hne⟩
    refine ⟨_, List.mem_map.2 ⟨y, hy, rfl⟩, List.mem_map.2 ⟨m, ?_, rfl⟩⟩
    rw [List.mem_filter, List.mem_range]
    exact ⟨hm, by simpa using hne⟩

lemma nodup_nonEmptyPairs (data : List ParsedRecord) {years : List ℚ}
    (h : years.Nodup) : (nonEmptyPairs data years).Nodup := by
  unfold nonEmptyPairs
  rw [List.nodup_flatten]
  constructor
  · rintro l hl
    rw [List.mem_map] at hl
    obtain ⟨y, -, rfl⟩ := hl
    refine List.Nodup.map ?_ ((List.nodup_range 12).filter _)
    intro a b hab
    simpa using congrArg Prod.snd hab
  · rw [List.pairwise_map]
    refine h.imp ?_
    intro y1 y2 hne p hp1 hp2
    rw [List.mem_map] at hp1 hp2
    obtain ⟨m1, -, rfl⟩ := hp1
    obtain ⟨m2, -, h2⟩ := hp2
    injection h2 with h2a h2b
    exact hne h2a.symm

lemma pairwise_nonEmptyPairs (data : List ParsedRecord) {years : List ℚ}
    (h : years.Pairwise (· < ·)) :
    (nonEmptyPairs data years).Pairwise
      (fun p q => p.1 < q.1 ∨ (p.1 = q.1 ∧ p.2 < q.2)) := by
  unfold nonEmptyPairs
  rw [List.pairwise_flatten]
  constructor
  · rintro l hl
    rw [List.mem_map] at hl
    obtain ⟨y, -, rfl⟩ := hl
    rw [List.pairwise_map]
    refine ((List.pairwise_lt_range 12).filter _).imp ?_
    intro a b hab
    exact Or.inr ⟨rfl, hab⟩
  · rw [List.pairwise_map]
    refine h.imp ?_
    intro y1 y2 hlt p hp1 q hq1
    rw [List.mem_map] at hp1 hq1
    obtain ⟨m1, -, rfl⟩ := hp1
    obtain ⟨m2, -, rfl⟩ := hq1
    exact Or.inl hlt

lemma foldl_min_le {x : ℚ} {xs : List ℚ} : ∀ v ∈ x :: xs, xs.foldl min x ≤ v := by
  induction xs generalizing x with
  | nil =>
    intro v hv
    simp only [List.mem_singleton] at hv
    simp [hv]
  | cons a xs ih =>
    intro v hv
    simp only [List.foldl_cons]
    rcases List.mem_cons.1 hv with rfl | hv1
    · exact le_trans (ih (min v a) (List.mem_cons_self _ _)) (min_le_left v a)
    · rcases List.mem_cons.1 hv1 with rfl | hv2
      · exact le_trans (ih (min x v) (List.mem_cons_self _ _)) (min_le_right x v)
      · exact ih v (List.mem_cons_of_mem _ hv2)

lemma le_foldl_max {x : ℚ} {xs : List ℚ} : ∀ v ∈ x :: xs, v ≤ xs.foldl max x := by
  induction xs generalizing x with
  | nil =>
    intro v hv
    simp only [List.mem_singleton] at hv
    simp [hv]
  | cons a xs ih =>
    intro v hv
    simp only [List.foldl_cons]
    rcases List.mem_cons.1 hv with rfl | hv1
    · exact le_trans (le_max_left v a) (ih (max v a) (List.mem_cons_self _ _))
    · rcases List.mem_cons.1 hv1 with rfl | hv2
      · exact le_trans (le_max_right x v) (ih (max x v) (List.mem_cons_self _ _))
      · exact ih v (List.mem_cons_of_mem _ hv2)

lemma length_mul_le_sum {l : List ℚ} {m : ℚ} (h : ∀ v ∈ l, m ≤ v) :
    (l.length : ℚ) * m ≤ l.sum := by
  induction l with
  | nil => simp
  | cons a l ih =>
    have ha := h a (List.mem_cons_self _ _)
    have hl := ih (fun v hv => h v (List.mem_cons_of_mem _ hv))
    simp only [List.length_cons, List.sum_cons, Nat.cast_succ]
    nlinarith

lemma sum_le_length_mul {l : List ℚ} {M : ℚ} (h : ∀ v ∈ l, v ≤ M) :
    l.sum ≤ (l.length : ℚ) * M := by
  induction l with
  | nil => simp
  | cons a l ih =>
    have ha := h a (List.mem_cons_self _ _)
    have hl := ih (fun v hv => h v (List.mem_cons_of_mem _ hv))
    simp only [List.length_cons, List.sum_cons, Nat.cast_succ]
    nlinarith

lemma forall₂_sum_le {l1 l2 : List ℚ} (h : List.Forall₂ (· ≤ ·) l1 l2) :
    l1.sum ≤ l2.sum := by
  induction h with
  | nil => simp
  | cons hab _ ih =>
    simp only [List.sum_cons]
    exact add_le_add hab ih

lemma minmax_forall₂ {recs : List ParsedRecord}
    (H : ∀ r ∈ recs, jsLeNum r.minTemperature r.maxTemperature = true) :
    List.Forall₂ (· ≤ ·) (recs.filterMap (fun d => d.minTemperature))
      (recs.filterMap (fun d => d.maxTemperature)) := by
  induction recs with
  | nil => simp
  | cons r recs ih =>
    have hr := H r (List.mem_cons_self _ _)
    unfold jsLeNum at hr
    cases hmin : r.minTemperature with
    | none => rw [hmin] at hr; cases hr
    | some a =>
      cases hmax : r.maxTemperature with
      | none => rw [hmin, hmax] at hr; cases hr
      | some b =>
        rw [hmin, hmax] at hr
        simp only [decide_eq_true_eq] at hr
        simp only [List.filterMap_cons, hmin, hmax]
        exact List.Forall₂.cons hr (ih (fun v hv => H v (List.mem_cons_of_mem _ hv)))

/-- The core numeric invariant of one non-empty month group whose records
all have numeric temperatures with `min ≤ max`:
min-of-mins ≤ avg-of-mins ≤ avg-of-maxes ≤ max-of-maxes. -/
lemma group_chain {recs : List ParsedRecord} (hne : recs ≠ [])
    (H : ∀ r ∈ recs, jsLeNum r.minTemperature r.maxTemperature = true) :
    ∃ mn amn amx mx,
      d3min recs (fun d => d.minTemperature) = some mn ∧
      d3mean recs (fun d => d.minTemperature) = some amn ∧
      d3mean recs (fun d => d.maxTemperature) = some amx ∧
      d3max recs (fun d => d.maxTemperature) = some mx ∧
      mn ≤ amn ∧ amn ≤ amx ∧ amx ≤ mx := by
  have hf := minmax_forall₂ H
  have hlen := hf.length_eq
  obtain ⟨r, rest, rfl⟩ := List.exists_cons_of_ne_nil hne
  have hr := H r (List.mem_cons_self _ _)
  unfold jsLeNum at hr
  cases hminr : r.minTemperature with
  | none => rw [hminr] at hr; cases hr
  | some a =>
  cases hmaxr : r.maxTemperature with
  | none => rw [hminr, hmaxr] at hr; cases hr
  | some b =>
  have hvmin : (r :: rest).filterMap (fun d => d.minTemperature) =
      a :: rest.filterMap (fun d => d.minTemperature) := by
    simp [List.filterMap_cons, hminr]
  have hvmax : (r :: rest).filterMap (fun d => d.maxTemperature) =
      b :: rest.filterMap (fun d => d.maxTemperature) := by
    simp [List.filterMap_cons, hmaxr]
  rw [hvmin, hvmax] at hf hlen
  have hpos : 0 < (((a :: rest.filterMap (fun d => d.minTemperature)).length : ℕ) : ℚ) := by
    exact_mod_cast Nat.succ_pos _
  have hpos2 : 0 < (((b :: rest.filterMap (fun d => d.maxTemperature)).length : ℕ) : ℚ) := by
    exact_mod_cast Nat.succ_pos _
  have hd3min : d3min (r :: rest) (fun d => d.minTemperature) =
      some ((rest.filterMap (fun d => d.minTemperature)).foldl min a) := by
    unfold d3min; rw [hvmin]
  have hd3max : d3max (r :: rest) (fun d => d.maxTemperature) =
      some ((rest.filterMap (fun d => d.maxTemperature)).foldl max b) := by
    unfold d3max; rw [hvmax]
  have hmeanmin : d3mean (r :: rest) (fun d => d.minTemperature) =
      some ((a :: rest.filterMap (fun d => d.minTemperature)).sum /
        (((a :: rest.filterMap (fun d => d.minTemperature)).length : ℕ) : ℚ)) := by
    simp only [d3mean, hvmin]
    rw [if_neg (by simp)]
  have hmeanmax : d3mean (r :: rest) (fun d => d.maxTemperature) =
      some ((b :: rest.filterMap (fun d => d.maxTemperature)).sum /
        (((b :: rest.filterMap (fun d => d.maxTemperature)).length : ℕ) : ℚ)) := by
    simp only [d3mean, hvmax]
    rw [if_neg (by simp)]
  refine ⟨_, _, _, _, hd3min, hmeanmin, hmeanmax, hd3max, ?_, ?_, ?_⟩
  · rw [le_div_iff₀ hpos]
    have hsum := length_mul_le_sum (l := a :: rest.filterMap (fun d => d.minTemperature))
      (m := (rest.filterMap (fun d => d.minTemperature)).foldl min a)
      (fun v hv => foldl_min_le v hv)
    linarith [hsum, mul_comm (((a :: rest.filterMap (fun d => d.minTemperature)).length : ℕ) : ℚ)
      ((rest.filterMap (fun d => d.minTemperature)).foldl min a)]
  · rw [hlen]
    exact div_le_div_of_nonneg_right (forall₂_sum_le hf) (le_of_lt hpos2)
  · rw [div_le_iff₀ hpos2]
    have hsum := sum_le_length_mul (l := b :: rest.filterMap (fun d => d.maxTemperature))
      (M := (rest.filterMap (fun d => d.maxTemperature)).foldl max b)
      (fun v hv => le_foldl_max v hv)
    linarith [hsum, mul_comm (((b :: rest.filterMap (fun d => d.maxTemperature)).length : ℕ) : ℚ)
      ((rest.filterMap (fun d => d.maxTemperature)).foldl max b)]

lemma basisSpline_clamp_hi (values : List ℚ) (t : ℚ) (ht : 1 ≤ t) :
    basisSpline values t = basisSpline values 1 := by
  have h1 : ¬ (t ≤ 0) := by linarith
  have h2 : ¬ ((1 : ℚ) ≤ 0) := by norm_num
  simp only [basisSpline, if_neg h1, if_pos ht, if_neg h2, if_pos (le_refl (1 : ℚ))]

lemma basisSpline_clamp_lo (values : List ℚ) (t : ℚ) (ht : t ≤ 0) :
    basisSpline values t = basisSpline values 0 := by
  simp only [basisSpline, if_pos ht, if_pos (le_refl (0 : ℚ))]

lemma length_aggregate (data : List ParsedRecord) (years : List ℚ) :
    (aggregateMonthlyData data years).length = (nonEmptyPairs data years).length := by
  rw [← keys_aggregate data years, List.length_map]

end Lemmas

/-- C1 (counterexample): on the concrete row `("2015-01-15", "", "oops")`,
whose temperature fields are non-numeric, `parseTemperatureData` neither
fails the batch nor skips the row: it emits one record, silently coerces
the empty `max_temperature` field to `0` (ECMAScript `+"" === 0`), turns
the non-numeric `min_temperature` into `NaN`, and the record also survives
the year filter — no parse failure is propagated anywhere. -/
theorem parseTemperatureData_no_failure_counterexample :
    (parseTemperatureData [badTempRow]).length = 1 ∧
    (parseTemperatureData [badTempRow]).map (fun r => r.maxTemperature) = [some 0] ∧
    (parseTemperatureData [badTempRow]).map (fun r => r.minTemperature) = [none] ∧
    (filterDataByYearRange (parseTemperatureData [badTempRow])).1.length = 1 := by
  exact ⟨rfl, by decide, by decide, rfl⟩

/-- C1 (amended): `parseTemperatureData` is total and never fails or skips:
it returns exactly one record per input row (the `i`-th output is the
parse of the `i`-th row); a non-numeric temperature field becomes `NaN`
rather than an error — except that an empty field is silently coerced to
`0`, as ECMAScript unary `+` does. -/
theorem parseTemperatureData_total (rows : List RawRow) :
    (parseTemperatureData rows).length = rows.length ∧
    (∀ i : ℕ, (parseTemperatureData rows)[i]? = rows[i]?.map parseRecord) ∧
    jsStringToNumber "" = some 0 ∧
    jsStringToNumber "oops" = none := by
  refine ⟨by simp [parseTemperatureData], fun i => by simp [parseTemperatureData],
    by decide, by decide⟩

/-- C2: `filterDataByYearRange` keeps exactly the records whose year is a
number in the inclusive configured range `[2008, 2017]`; the returned year
list is strictly ascending (hence duplicate-free) and contains exactly the
distinct years of the filtered records; the empty input yields empty
records and an empty year list, not an error. -/
theorem filterDataByYearRange_spec (data : List ParsedRecord) :
    (∀ r : ParsedRecord, r ∈ (filterDataByYearRange data).1 ↔
        r ∈ data ∧ ∃ q, r.year = some q ∧ yearRangeStart ≤ q ∧ q ≤ yearRangeEnd) ∧
    List.Sorted (· < ·) (filterDataByYearRange data).2 ∧
    (∀ q : ℚ, q ∈ (filterDataByYearRange data).2 ↔
        ∃ r ∈ (filterDataByYearRange data).1, r.year = some q) ∧
    filterDataByYearRange [] = ([], []) :=
  ⟨fun _ => mem_filteredData, sorted_years data, fun _ => mem_years, rfl⟩

/-- C3: over a duplicate-free year list, `aggregateMonthlyData` emits
exactly one Monthly Summary per `(year, month)` pair with at least one
matching record and none for empty pairs: the `(year, month)` keys of the
output are duplicate-free, a key occurs iff its month group is non-empty
(for a year of the list and a month index `< 12`), and the output length
is the number of non-empty pairs. -/
theorem aggregateMonthlyData_sparse (data : List ParsedRecord)
    (years : List ℚ) (hnd : years.Nodup) :
    ((aggregateMonthlyData data years).map (fun s => (s.year, s.month))).Nodup ∧
    (∀ (y : ℚ) (m : ℕ),
        (y, m) ∈ (aggregateMonthlyData data years).map (fun s => (s.year, s.month)) ↔
          y ∈ years ∧ m < 12 ∧ monthGroup data y m ≠ []) ∧
    (aggregateMonthlyData data years).length = (nonEmptyPairs data years).length := by
  refine ⟨?_, ?_, length_aggregate data years⟩
  · rw [keys_aggregate]
    exact nodup_nonEmptyPairs data hnd
  · intro y m
    rw [keys_aggregate]
    exact mem_nonEmptyPairs

/-- Witness for C3 at the two-record sample data and year list `[2015]`. -/
theorem aggregateMonthlyData_sparse_witness :
    ([2015] : List ℚ).Nodup ∧
    (((aggregateMonthlyData sampleData [2015]).map (fun s => (s.year, s.month))).Nodup ∧
      (∀ (y : ℚ) (m : ℕ),
          (y, m) ∈ (aggregateMonthlyData sampleData [2015]).map (fun s => (s.year, s.month)) ↔
            y ∈ ([2015] : List ℚ) ∧ m < 12 ∧ monthGroup sampleData y m ≠ []) ∧
      (aggregateMonthlyData sampleData [2015]).length =
        (nonEmptyPairs sampleData [2015]).length) :=
  ⟨by decide, aggregateMonthlyData_sparse sampleData [2015] (by decide)⟩

/-- C4: when every input record has numeric temperatures with
`minTemperature ≤ maxTemperature`, every Monthly Summary satisfies the
chain `minTemp ≤ avgMin ≤ avgMax ≤ maxTemp`. -/
theorem aggregateMonthlyData_chain (data : List ParsedRecord)
    (years : List ℚ)
    (H : ∀ r ∈ data, jsLeNum r.minTemperature r.maxTemperature = true) :
    ∀ s ∈ aggregateMonthlyData data years,
      ∃ mn amn amx mx,
        s.minTemp = some mn ∧ s.avgMin = some amn ∧
        s.avgMax = some amx ∧ s.maxTemp = some mx ∧
        mn ≤ amn ∧ amn ≤ amx ∧ amx ≤ mx := by
  intro s hs
  obtain ⟨y, hy, m, hm, hsome⟩ := mem_aggregate.1 hs
  obtain ⟨-, -, hne, -, hmax, hmin, havgmax, havgmin⟩ := monthSummary_eq_some hsome
  obtain ⟨mn, amn, amx, mx, h1, h2, h3, h4, h5, h6, h7⟩ :=
    group_chain hne (fun r hr => H r (List.mem_of_mem_filter hr))
  exact ⟨mn, amn, amx, mx, by rw [hmin, h1], by rw [havgmin, h2],
    by rw [havgmax, h3], by rw [hmax, h4], h5, h6, h7⟩

/-- Witness for C4 at the two-record sample data and year list `[2015]`. -/
theorem aggregateMonthlyData_chain_witness :
    (∀ r ∈ sampleData, jsLeNum r.minTemperature r.maxTemperature = true) ∧
    (∀ s ∈ aggregateMonthlyData sampleData [2015],
      ∃ mn amn amx mx,
        s.minTemp = some mn ∧ s.avgMin = some amn ∧
        s.avgMax = some amx ∧ s.maxTemp = some mx ∧
        mn ≤ amn ∧ amn ≤ amx ∧ amx ≤ mx) :=
  ⟨by decide, aggregateMonthlyData_chain sampleData [2015] (by decide)⟩

/-- C5: over a strictly ascending year list (as `filterDataByYearRange`
produces), the Monthly Summaries appear in year-major, month-minor
ascending order. -/
theorem aggregateMonthlyData_ordered (data : List ParsedRecord)
    (years : List ℚ) (hys : years.Pairwise (· < ·)) :
    (aggregateMonthlyData data years).Pairwise
      (fun s t => s.year < t.year ∨ (s.year = t.year ∧ s.month < t.month)) := by
  have hp := pairwise_nonEmptyPairs data hys
  rw [← keys_aggregate data years, List.pairwise_map] at hp
  exact hp

/-- Witness for C5 at the two-record sample data and year list `[2015]`. -/
theorem aggregateMonthlyData_ordered_witness :
    ([2015] : List ℚ).Pairwise (· < ·) ∧
    (aggregateMonthlyData sampleData [2015]).Pairwise
      (fun s t => s.year < t.year ∨ (s.year = t.year ∧ s.month < t.month)) :=
  ⟨by decide, aggregateMonthlyData_ordered sampleData [2015] (by decide)⟩

/-- C6: when every input record has a numeric day, the `dailyData` of each
emitted Monthly Summary is a permutation of (hence exactly, and as many
as) the raw records of that summary's `(year, month)` group, ordered
ascending by day. -/
theorem aggregateMonthlyData_dailyData (data : List ParsedRecord)
    (years : List ℚ) (hday : ∀ r ∈ data, r.day.isSome = true) :
    ∀ s ∈ aggregateMonthlyData data years,
      s.dailyData.Perm (monthGroup data s.year s.month) ∧
      s.dailyData.length = (monthGroup data s.year s.month).length ∧
      s.dailyData.Pairwise
        (fun a b => ∃ da db, a.day = some da ∧ b.day = some db ∧ da ≤ db) := by
  intro s hs
  obtain ⟨y, hy, m, hm, hsome⟩ := mem_aggregate.1 hs
  obtain ⟨hyear, hmonth, hne, hdaily, -, -, -, -⟩ := monthSummary_eq_some hsome
  rw [hdaily, hyear, hmonth]
  refine ⟨List.perm_insertionSort _ _, (List.perm_insertionSort _ _).length_eq, ?_⟩
  have hsorted : (List.insertionSort jsDayLe (monthGroup data y m)).Pairwise jsDayLe :=
    List.sorted_insertionSort _ _
  refine hsorted.imp_of_mem ?_
  intro a b ha hb hab
  have hamem : a ∈ data := List.mem_of_mem_filter
    ((List.perm_insertionSort jsDayLe _).mem_iff.1 ha)
  have hbmem : b ∈ data := List.mem_of_mem_filter
    ((List.perm_insertionSort jsDayLe _).mem_iff.1 hb)
  have haday := hday a hamem
  have hbday := hday b hbmem
  cases hda : a.day with
  | none => rw [hda] at haday; cases haday
  | some da =>
    cases hdb : b.day with
    | none => rw [hdb] at hbday; cases hbday
    | some db =>
      unfold jsDayLe at hab
      rw [hda, hdb] at hab
      exact ⟨da, db, rfl, rfl, by simpa using hab⟩

/-- Witness for C6 at the two-record sample data and year list `[2015]`. -/
theorem aggregateMonthlyData_dailyData_witness :
    (∀ r ∈ sampleData, r.day.isSome = true) ∧
    (∀ s ∈ aggregateMonthlyData sampleData [2015],
      s.dailyData.Perm (monthGroup sampleData s.year s.month) ∧
      s.dailyData.length = (monthGroup sampleData s.year s.month).length ∧
      s.dailyData.Pairwise
        (fun a b => ∃ da db, a.day = some da ∧ b.day = some db ∧ da ≤ db)) :=
  ⟨by decide, aggregateMonthlyData_dailyData sampleData [2015] (by decide)⟩

set_option maxRecDepth 100000 in
/-- C7: on the spec scenario rows `("2015-01-15", 20.0, 10.0)` and
`("2015-01-16", 22.0, 11.0)` the full pipeline
`parseTemperatureData → filterDataByYearRange → aggregateMonthlyData`
yields exactly one Monthly Summary
`{year: 2015, month: 0, maxTemp: 22, minTemp: 10, avgMax: 21, avgMin: 10.5}`
whose `dailyData` is the day-15 record followed by the day-16 record.
(All rows are in 2015, so the configured 2008–2017 window realizes the
scenario's `[2015, 2015]` selection: the year list is `[2015]`.) -/
theorem pipeline_scenario :
    aggregateMonthlyData (filterDataByYearRange (parseTemperatureData sampleRows)).1
      (filterDataByYearRange (parseTemperatureData sampleRows)).2 =
    [{ year := 2015, month := 0, monthName := "January",
       maxTemp := some 22, minTemp := some 10,
       avgMax := some 21, avgMin := some (21 / 2),
       dailyData := [rec15, rec16] }] := by
  with_unfolding_all rfl

/-- C8: the color scale built on domain `[0, 40]` clamps out-of-range
inputs to the nearest endpoint color instead of extrapolating: every value
at or above `tempRangeMax` gets the color of `tempRangeMax`, and every
value at or below `tempRangeMin` gets the color of `tempRangeMin`. -/
theorem createColorScale_clamps (x : ℚ) :
    (tempRangeMax ≤ x → createColorScale x = createColorScale tempRangeMax) ∧
    (x ≤ tempRangeMin → createColorScale x = createColorScale tempRangeMin) := by
  constructor
  · intro hx
    simp only [tempRangeMax] at hx
    have ht : (1 : ℚ) ≤ (x - tempRangeMin) / (tempRangeMax - tempRangeMin) := by
      simp only [tempRangeMin, tempRangeMax]
      rw [le_div_iff₀ (by norm_num)]
      linarith
    have h1 : ((tempRangeMax - tempRangeMin) / (tempRangeMax - tempRangeMin) : ℚ) = 1 := by
      simp only [tempRangeMin, tempRangeMax]; norm_num
    simp only [createColorScale, scaleSequentialYlOrRd, interpolateYlOrRd, h1,
      basisSpline_clamp_hi _ _ ht, basisSpline_clamp_hi _ _ (le_refl (1 : ℚ))]
  · intro hx
    simp only [tempRangeMin] at hx
    have ht : (x - tempRangeMin) / (tempRangeMax - tempRangeMin) ≤ 0 := by
      simp only [tempRangeMin, tempRangeMax]
      rw [div_nonpos_iff]
      right
      constructor <;> linarith
    have h0 : ((tempRangeMin - tempRangeMin) / (tempRangeMax - tempRangeMin) : ℚ) = 0 := by
      simp only [tempRangeMin, tempRangeMax]; norm_num
    simp only [createColorScale, scaleSequentialYlOrRd, interpolateYlOrRd, h0,
      basisSpline_clamp_lo _ _ ht, basisSpline_clamp_lo _ _ (le_refl (0 : ℚ))]

/-- Witness for C8: the out-of-range value `50` maps to the identical
color as the endpoint `tempRangeMax = 40`. -/
theorem createColorScale_clamps_witness :
    tempRangeMax ≤ (50 : ℚ) ∧ createColorScale 50 = createColorScale tempRangeMax :=
  ⟨by decide, (createColorScale_clamps 50).1 (by decide)⟩

/-- C9: `aggregateMonthlyData` is deterministic and idempotent — two runs
on equal inputs produce equal outputs; being a pure function of its two
arguments, it reads no hidden randomness, clock, or prior-run state (the
only mutable global of the program, `isShowingMaxTemp`, is never read by
the aggregation). -/
theorem aggregateMonthlyData_deterministic (d1 d2 : List ParsedRecord)
    (y1 y2 : List ℚ) (hd : d1 = d2) (hy : y1 = y2) :
    aggregateMonthlyData d1 y1 = aggregateMonthlyData d2 y2 := by
  rw [hd, hy]

/-- Witness for C9 at the two-record sample data and year list `[2015]`. -/
theorem aggregateMonthlyData_deterministic_witness :
    sampleData = sampleData ∧ ([2015] : List ℚ) = [2015] ∧
    aggregateMonthlyData sampleData [2015] = aggregateMonthlyData sampleData [2015] :=
  ⟨rfl, rfl, aggregateMonthlyData_deterministic sampleData sampleData [2015] [2015] rfl rfl⟩

/-- C10: `parseTemperatureData` is total: it emits one record per input
row, a row with a malformed date yields `NaN` (`none`) year/month/day
fields rather than a failure, and every such `NaN`-dated record is then
silently excluded by `filterDataByYearRange`, since `NaN` fails both range
comparisons. -/
theorem parseTemperatureData_nan_flow (rows : List RawRow) (row : RawRow)
    (hrow : row ∈ rows) (hbad : jsDateComponents row.date = none) :
    (parseTemperatureData rows).length = rows.length ∧
    parseRecord row ∈ parseTemperatureData rows ∧
    (parseRecord row).year = none ∧ (parseRecord row).month = none ∧
    (parseRecord row).day = none ∧
    parseRecord row ∉ (filterDataByYearRange (parseTemperatureData rows)).1 := by
  have hyr : (parseRecord row).year = none := by simp [parseRecord, hbad]
  refine ⟨by simp [parseTemperatureData], List.mem_map_of_mem _ hrow, hyr,
    by simp [parseRecord, hbad], by simp [parseRecord, hbad], ?_⟩
  intro hmem
  obtain ⟨q, hq⟩ := year_isSome_of_mem_filteredData hmem
  rw [hyr] at hq
  cases hq

/-- Witness for C10 at the malformed row `("not-a-date", 20.0, 10.0)`. -/
theorem parseTemperatureData_nan_flow_witness :
    badRow ∈ [badRow] ∧ jsDateComponents badRow.date = none ∧
    ((parseTemperatureData [badRow]).length = [badRow].length ∧
      parseRecord badRow ∈ parseTemperatureData [badRow] ∧
      (parseRecord badRow).year = none ∧ (parseRecord badRow).month = none ∧
      (parseRecord badRow).day = none ∧
      parseRecord badRow ∉ (filterDataByYearRange (parseTemperatureData [badRow])).1) :=
  ⟨List.mem_cons_self _ _, by decide,
    parseTemperatureData_nan_flow [badRow] badRow (List.mem_cons_self _ _) (by decide)⟩
